import Mathlib

/-!
Verification of the cultural-protocol / field-access-control layer of the
act-global-infrastructure repository.

The definitions below are a shallow embedding of the Python sources
`tools/base_tool.py` (policy tiers, `check_cultural_protocol`,
`check_contact_cultural_protocols`) and `tools/ghl_tool.py` (the mock
contact store and the operations `search_contacts`, `get_contact`,
`update_contact`, `add_tag`).  Python exceptions are modelled with
`Except`; the mutable mock-contact list is modelled by explicit state
passing (each mutating operation takes and returns the store).
-/

namespace ACT

/-- Values stored in a contact's `customFields` map (strings, integers,
booleans and lists of strings, the types that occur in the mock data). -/
inductive Value where
  | vStr (s : String)
  | vInt (n : Int)
  | vBool (b : Bool)
  | vStrList (l : List String)
deriving DecidableEq

/-- Structured form of the `PermissionError` raised by
`check_cultural_protocol`: either a blocked-field violation or a
read-only violation, carrying the offending field and operation. -/
inductive PolicyErr where
  | blocked (field_name operation : String)
  | readOnly (field_name operation : String)
deriving DecidableEq

/-- `BaseTool.BLOCKED_FIELDS` (base_tool.py lines 17-21). -/
def BLOCKED_FIELDS : List String :=
  ["elder_consent", "sacred_knowledge"]

/-- `BaseTool.READ_ONLY_FIELDS` (base_tool.py lines 24-28). -/
def READ_ONLY_FIELDS : List String :=
  ["cultural_protocols", "supabase_user_id", "elder_review_required"]

/-- `BaseTool.check_cultural_protocol` (base_tool.py lines 34-78).
A `PermissionError` is modelled as `Except.error`.  The `context`
argument is accepted and, exactly as in the source, never used. -/
def check_cultural_protocol (field_name operation : String)
    (context : Option (List (String × Value))) : Except PolicyErr Unit :=
  if field_name ∈ BLOCKED_FIELDS then
    .error (.blocked field_name operation)
  else if field_name ∈ READ_ONLY_FIELDS ∧ operation ∈ ["write", "delete"] then
    .error (.readOnly field_name operation)
  else
    .ok ()

theorem check_blocked_eq {f : String} (op : String)
    (ctx : Option (List (String × Value))) (hf : f ∈ BLOCKED_FIELDS) :
    check_cultural_protocol f op ctx = .error (.blocked f op) := by
  simp [check_cultural_protocol, hf]

theorem check_write_fails {f : String}
    (h : f ∈ BLOCKED_FIELDS ∨ f ∈ READ_ONLY_FIELDS) :
    ∃ e, check_cultural_protocol f "write" none = .error e := by
  by_cases hb : f ∈ BLOCKED_FIELDS
  · exact ⟨.blocked f "write", check_blocked_eq "write" none hb⟩
  · rcases h with h | h
    · exact absurd h hb
    · exact ⟨.readOnly f "write", by simp [check_cultural_protocol, hb, h]⟩

/-- C1: every field of the BLOCKED tier fails `check_cultural_protocol`
with a blocked-field violation for each of the actions read, write and
delete, for every context — there is no context-dependent bypass. -/
theorem blocked_tier_always_fails (f a : String)
    (ctx : Option (List (String × Value)))
    (hf : f ∈ BLOCKED_FIELDS) (ha : a ∈ ["read", "write", "delete"]) :
    check_cultural_protocol f a ctx = .error (.blocked f a) :=
  check_blocked_eq a ctx hf

/-- Witness for C1 at the concrete field `sacred_knowledge`, action
`write`, empty context. -/
theorem blocked_tier_always_fails_witness :
    check_cultural_protocol "sacred_knowledge" "write" none
      = .error (.blocked "sacred_knowledge" "write") :=
  blocked_tier_always_fails "sacred_knowledge" "write" none
    (by decide) (by decide)

/-- C5: every field of the READ_ONLY tier passes the policy check for
`read` and fails with a read-only violation for `write` and `delete`. -/
theorem read_only_tier (f : String) (ctx : Option (List (String × Value)))
    (hf : f ∈ READ_ONLY_FIELDS) :
    check_cultural_protocol f "read" ctx = .ok () ∧
    check_cultural_protocol f "write" ctx = .error (.readOnly f "write") ∧
    check_cultural_protocol f "delete" ctx = .error (.readOnly f "delete") := by
  have h3 : f = "cultural_protocols" ∨ f = "supabase_user_id" ∨
      f = "elder_review_required" := by
    simpa [READ_ONLY_FIELDS] using hf
  rcases h3 with rfl | rfl | rfl <;> exact ⟨rfl, rfl, rfl⟩

/-- Witness for C5 at the concrete field `cultural_protocols`. -/
theorem read_only_tier_witness :
    check_cultural_protocol "cultural_protocols" "read" none = .ok () ∧
    check_cultural_protocol "cultural_protocols" "write" none
      = .error (.readOnly "cultural_protocols" "write") ∧
    check_cultural_protocol "cultural_protocols" "delete" none
      = .error (.readOnly "cultural_protocols" "delete") :=
  read_only_tier "cultural_protocols" none (by decide)

/-- C6: a field registered in neither tier passes the policy check for
every action (in particular read, write and delete) — unregistered
fields default to the OPEN tier. -/
theorem open_tier_default (f a : String)
    (ctx : Option (List (String × Value)))
    (h1 : f ∉ BLOCKED_FIELDS) (h2 : f ∉ READ_ONLY_FIELDS) :
    check_cultural_protocol f a ctx = .ok () := by
  simp [check_cultural_protocol, h1, h2]

/-- Witness for C6 at the concrete field `stories_count`, action
`delete`. -/
theorem open_tier_default_witness :
    check_cultural_protocol "stories_count" "delete" none = .ok () :=
  open_tier_default "stories_count" "delete" none (by decide) (by decide)

/-- A CRM contact record as handled by the tools: a dict with an id,
name/address scalars, a `tags` list and a `customFields` map (modelled
as an association list; lookup takes the first matching key, as Python
dict keys are unique). -/
structure Contact where
  id : String
  email : String := ""
  firstName : String := ""
  lastName : String := ""
  phone : String := ""
  companyName : String := ""
  tags : List String := []
  customFields : List (String × Value) := []
deriving DecidableEq

/-- Python `d.get(k)` on a `customFields` map: `none` models `None`. -/
def getField (fields : List (String × Value)) (k : String) : Option Value :=
  (fields.find? (fun p => p.1 == k)).map (fun p => p.2)

/-- Python truthiness of `d.get(k)`: `None`, `False`, `0`, `""` and `[]`
are falsy, everything else truthy. -/
def truthy : Option Value → Bool
  | none => false
  | some (.vStr s) => s != ""
  | some (.vInt n) => n != 0
  | some (.vBool b) => b
  | some (.vStrList l) => !l.isEmpty

/-- Python `str.lower()` (ASCII case folding, which covers the tag
vocabulary of the repository). -/
def pyLower (s : String) : String := String.mk (s.toList.map Char.toLower)

def startsWithChars : List Char → List Char → Bool
  | _, [] => true
  | [], _ :: _ => false
  | a :: as, b :: bs => a == b && startsWithChars as bs

def hasSubChars : List Char → List Char → Bool
  | [], pat => pat.isEmpty
  | a :: as, pat => startsWithChars (a :: as) pat || hasSubChars as pat

/-- Python substring containment `needle in hay`. -/
def pyContains (hay needle : String) : Bool :=
  hasSubChars hay.toList needle.toList

/-- The dict returned by `check_contact_cultural_protocols`
(base_tool.py lines 143-150). -/
structure ReviewResult where
  requires_review : Bool
  reason : Option String
  actions_blocked : List String
  recommended_action : Option String
  contact_id : String
  contact_name : String
deriving DecidableEq

/-- The action list appended by the Elder-tag rule and by the
`elder_review_required` rule (base_tool.py lines 113 and 120). -/
def elderActions : List String :=
  ["automated_email", "automated_outreach", "ai_generated_content"]

/-- The action list appended by the sacred-knowledge rule
(base_tool.py lines 137-140). -/
def sacredActions : List String :=
  ["read", "write", "delete", "automated_email",
   "automated_outreach", "ai_generated_content", "bulk_operations"]

/-- Condition of the Elder-tag rule (base_tool.py line 110):
`'role:elder' in tags or any('elder' in t.lower() for t in tags)`. -/
def elderTagRule (c : Contact) : Bool :=
  c.tags.contains "role:elder"
    || c.tags.any (fun t => pyContains (pyLower t) "elder")

/-- Condition of the `elder_review_required` rule (base_tool.py
line 117): the custom field is present and truthy. -/
def elderFieldRule (c : Contact) : Bool :=
  truthy (getField c.customFields "elder_review_required")

/-- The `cultural:`-namespaced tags of a contact (base_tool.py
line 124). -/
def culturalTags (c : Contact) : List String :=
  c.tags.filter (fun t => t.startsWith "cultural:")

/-- Condition of the cultural-tags rule (base_tool.py line 125):
the list of `cultural:` tags is non-empty. -/
def culturalTagRule (c : Contact) : Bool :=
  !(culturalTags c).isEmpty

/-- Condition of the sacred-knowledge rule (base_tool.py line 132):
the custom field is present and truthy. -/
def sacredFieldRule (c : Contact) : Bool :=
  truthy (getField c.customFields "sacred_knowledge")

/-- `BaseTool.check_contact_cultural_protocols` (base_tool.py lines
80-150).  The Python function initialises the four result variables and
then runs four `if` blocks in order, each overwriting `reason` /
`recommended_action`, setting `requires_review` and extending
`blocked_actions`; the chained record updates below reproduce that
mutation sequence. -/
def check_contact_cultural_protocols (contact : Contact) : ReviewResult :=
  let r0 : ReviewResult :=
    { requires_review := false
      reason := none
      actions_blocked := []
      recommended_action := none
      contact_id := contact.id
      contact_name := (contact.firstName ++ " " ++ contact.lastName).trim }
  let r1 := if elderTagRule contact then
      { r0 with
        requires_review := true
        reason := some "Contact is tagged as Elder - cultural protocols apply"
        actions_blocked := r0.actions_blocked ++ elderActions
        recommended_action := some "Flag for human review before any communication" }
    else r0
  let r2 := if elderFieldRule contact then
      { r1 with
        requires_review := true
        reason := some "Contact has elder_review_required flag set"
        actions_blocked := r1.actions_blocked ++ elderActions
        recommended_action := some "Human approval required before any action" }
    else r1
  let r3 := if culturalTagRule contact then
      { r2 with
        requires_review := true
        reason := some ("Contact has cultural tags: "
          ++ String.intercalate ", " (culturalTags contact))
        actions_blocked := r2.actions_blocked ++ ["bulk_operations"]
        recommended_action := some "Review cultural context before communication" }
    else r2
  let r4 := if sacredFieldRule contact then
      { r3 with
        requires_review := true
        reason := some "CRITICAL: Sacred knowledge detected - FULL BLOCK"
        actions_blocked := r3.actions_blocked ++ sacredActions
        recommended_action := some "IMMEDIATELY escalate to ACT Cultural Advisor" }
    else r3
  r4

/-- Spec-side description of `reason` (claim C4): the reason text of
the last matched rule in the order elder-tag, elder-field, cultural
tags, sacred knowledge. -/
def specReason (c : Contact) : Option String :=
  if sacredFieldRule c then
    some "CRITICAL: Sacred knowledge detected - FULL BLOCK"
  else if culturalTagRule c then
    some ("Contact has cultural tags: "
      ++ String.intercalate ", " (culturalTags c))
  else if elderFieldRule c then
    some "Contact has elder_review_required flag set"
  else if elderTagRule c then
    some "Contact is tagged as Elder - cultural protocols apply"
  else none

/-- Spec-side description of `recommended_action` (claim C4):
last matched rule wins. -/
def specRecommended (c : Contact) : Option String :=
  if sacredFieldRule c then
    some "IMMEDIATELY escalate to ACT Cultural Advisor"
  else if culturalTagRule c then
    some "Review cultural context before communication"
  else if elderFieldRule c then
    some "Human approval required before any action"
  else if elderTagRule c then
    some "Flag for human review before any communication"
  else none

/-- Spec-side description of `requires_review` (claim C4): some rule
matched. -/
def specRequires (c : Contact) : Bool :=
  elderTagRule c || elderFieldRule c || culturalTagRule c || sacredFieldRule c

/-- Spec-side description of the blocked-action set (claim C4): the
union over all matched rules of the action set each contributes. -/
def specBlocked (c : Contact) (a : String) : Prop :=
  (elderTagRule c = true ∧ a ∈ elderActions) ∨
  (elderFieldRule c = true ∧ a ∈ elderActions) ∨
  (culturalTagRule c = true ∧ a ∈ ["bulk_operations"]) ∨
  (sacredFieldRule c = true ∧ a ∈ sacredActions)

/-- C4: the review classifier evaluates its four rules in the fixed
order elder-tag, elder-review-required field, cultural tags, sacred
knowledge; `reason` and `recommended_action` are those of the last
matched rule, `requires_review` is set when any rule matches, and the
blocked-action list holds exactly the union, as a set, of the action
sets contributed by the matched rules. -/
theorem classifier_order_and_union (c : Contact) :
    (check_contact_cultural_protocols c).requires_review = specRequires c ∧
    (check_contact_cultural_protocols c).reason = specReason c ∧
    (check_contact_cultural_protocols c).recommended_action = specRecommended c ∧
    ∀ a : String,
      a ∈ (check_contact_cultural_protocols c).actions_blocked ↔ specBlocked c a := by
  cases h1 : elderTagRule c <;> cases h2 : elderFieldRule c <;>
    cases h3 : culturalTagRule c <;> cases h4 : sacredFieldRule c <;>
      refine ⟨?_, ?_, ?_, fun a => ?_⟩ <;>
        simp [check_contact_cultural_protocols, specRequires, specReason,
          specRecommended, specBlocked, h1, h2, h3, h4]

/-- C9: the elder-role rule matches by case-insensitive substring — any
contact with a tag containing "elder" in any letter case is flagged for
review with the three automated-communication actions blocked. -/
theorem elder_substring_rule (c : Contact)
    (h : c.tags.any (fun t => pyContains (pyLower t) "elder") = true) :
    (check_contact_cultural_protocols c).requires_review = true ∧
    "automated_email" ∈ (check_contact_cultural_protocols c).actions_blocked ∧
    "automated_outreach" ∈ (check_contact_cultural_protocols c).actions_blocked ∧
    "ai_generated_content" ∈ (check_contact_cultural_protocols c).actions_blocked := by
  have h1 : elderTagRule c = true := by
    simp [elderTagRule, h]
  cases h2 : elderFieldRule c <;> cases h3 : culturalTagRule c <;>
    cases h4 : sacredFieldRule c <;>
      simp [check_contact_cultural_protocols, h1, h2, h3, h4, elderActions]

/-- A contact whose only tag is `interest:Elderberry` — not an exact
`role:elder` tag, but it contains "elder" up to letter case. -/
def elderberryContact : Contact :=
  { id := "w_elderberry", tags := ["interest:Elderberry"] }

/-- Witness for C9 at the `interest:Elderberry` contact. -/
theorem elder_substring_rule_witness :
    (check_contact_cultural_protocols elderberryContact).requires_review = true ∧
    "automated_email" ∈ (check_contact_cultural_protocols elderberryContact).actions_blocked ∧
    "automated_outreach" ∈ (check_contact_cultural_protocols elderberryContact).actions_blocked ∧
    "ai_generated_content" ∈ (check_contact_cultural_protocols elderberryContact).actions_blocked :=
  elder_substring_rule elderberryContact (by decide)

/-- The exceptions raised by `GHLTool` operations: the structured
`PermissionError` of the policy check, the `ValueError` of
`get_contact` on a missing id, and the `TypeError` a Python `>=`
comparison raises on unordered operand types. -/
inductive GHLErr where
  | policy (e : PolicyErr)
  | notFound (contact_id : String)
  | typeError
deriving DecidableEq

/-- The `for field in ...: self.check_cultural_protocol(field, op)`
loops of ghl_tool.py (lines 131-132 and 217-218): the first violation
aborts. -/
def checkFieldsFor (fields : List String) (operation : String) :
    Except PolicyErr Unit :=
  match fields with
  | [] => .ok ()
  | f :: rest =>
    match check_cultural_protocol f operation none with
    | .error e => .error e
    | .ok _ => checkFieldsFor rest operation

/-- One entry of `customFieldFilters`: the comparison-operator keys the
dict may carry (`$gte`, `$eq`, `$exists`), plus `$lte`, which a caller
may write but which no branch of the source reads. -/
structure Condition where
  gteC : Option Value := none
  eqC : Option Value := none
  existsC : Option Bool := none
  lteC : Option Value := none
deriving DecidableEq

/-- The `filters` dict of `search_contacts` (ghl_tool.py lines
116-119): an optional tag list and optional custom-field conditions. -/
structure SearchFilters where
  tagsF : Option (List String) := none
  customFieldFilters : Option (List (String × Condition)) := none
deriving DecidableEq

/-- Python numeric coercion for comparisons: ints are themselves,
bools are 0/1, other values are not numbers. -/
def toNum : Value → Option Int
  | .vInt n => some n
  | .vBool b => some (if b then 1 else 0)
  | _ => none

/-- Python `a >= b` on field values: numeric when both coerce to
numbers, lexicographic on strings, and a `TypeError` (`none`)
otherwise. -/
def pyGe (a b : Value) : Option Bool :=
  match toNum a, toNum b with
  | some x, some y => some (decide (y ≤ x))
  | _, _ =>
    match a, b with
    | .vStr s, .vStr t => some (decide (¬ s < t))
    | _, _ => none

/-- Python `a == b` on field values: numeric equality when both coerce
to numbers (so `True == 1`), structural equality within a type, and
`False` across types. -/
def pyEq (a b : Value) : Bool :=
  match toNum a, toNum b with
  | some x, some y => x == y
  | _, _ =>
    match a, b with
    | .vStr s, .vStr t => s == t
    | .vStrList s, .vStrList t => s == t
    | _, _ => false

/-- A Python list comprehension `[c for c in l if p c]` whose predicate
may raise: evaluation is left to right and the first exception aborts
the whole comprehension. -/
def filterExcept (p : Contact → Except GHLErr Bool) :
    List Contact → Except GHLErr (List Contact)
  | [] => .ok []
  | c :: rest =>
    match p c with
    | .error e => .error e
    | .ok b =>
      match filterExcept p rest with
      | .error e => .error e
      | .ok tail => .ok (if b then c :: tail else tail)

/-- One iteration of the condition loop of `search_contacts`
(ghl_tool.py lines 147-162): `if '$gte' in condition ... elif '$eq'
... elif '$exists' ...`; a condition carrying none of the three
recognised keys falls through all branches and filters nothing. -/
def applyCondition (field : String) (cond : Condition)
    (results : List Contact) : Except GHLErr (List Contact) :=
  match cond.gteC with
  | some v =>
    filterExcept (fun c =>
      match pyGe ((getField c.customFields field).getD (.vInt 0)) v with
      | some b => .ok b
      | none => .error .typeError) results
  | none =>
    match cond.eqC with
    | some v =>
      .ok (results.filter (fun c =>
        match getField c.customFields field with
        | some w => pyEq w v
        | none => false))
    | none =>
      match cond.existsC with
      | some b =>
        .ok (results.filter (fun c => (getField c.customFields field).isSome == b))
      | none => .ok results

/-- The `for field, condition in filters['customFieldFilters'].items()`
loop of `search_contacts` (ghl_tool.py lines 146-162). -/
def applyConditions : List (String × Condition) → List Contact →
    Except GHLErr (List Contact)
  | [], results => .ok results
  | (field, cond) :: rest, results =>
    match applyCondition field cond results with
    | .error e => .error e
    | .ok r => applyConditions rest r

/-- `GHLTool.search_contacts` in mock mode (ghl_tool.py lines 108-164):
policy-check every filtered field for `read`, then filter the store by
tags and by each custom-field condition. -/
def search_contacts (store : List Contact) (filters : Option SearchFilters) :
    Except GHLErr (List Contact) :=
  let f := filters.getD {}
  match checkFieldsFor (((f.customFieldFilters).getD []).map (fun p => p.1)) "read" with
  | .error e => .error (.policy e)
  | .ok _ =>
    let results := store
    let results := match f.tagsF with
      | some ts =>
        if !ts.isEmpty then
          results.filter (fun c => ts.any (fun t => c.tags.contains t))
        else results
      | none => results
    applyConditions ((f.customFieldFilters).getD []) results

/-- `next((c for c in self.mock_contacts if c['id'] == contact_id), None)`
(ghl_tool.py line 186). -/
def findContact (store : List Contact) (contact_id : String) : Option Contact :=
  store.find? (fun c => c.id == contact_id)

/-- `GHLTool.get_contact` in mock mode (ghl_tool.py lines 172-194):
`ValueError` on a missing id; the cultural-protocol check that follows
only logs and returns the contact unchanged. -/
def get_contact (store : List Contact) (contact_id : String) :
    Except GHLErr Contact :=
  match findContact store contact_id with
  | none => .error (.notFound contact_id)
  | some c => .ok c

/-- Python `dict.update` on an association list: each updated key
replaces the first occurrence in place or is appended at the end. -/
def setKey : List (String × Value) → String → Value → List (String × Value)
  | [], k, v => [(k, v)]
  | (k', v') :: rest, k, v =>
    if k' == k then (k, v) :: rest else (k', v') :: setKey rest k v

def dictUpdate (d upd : List (String × Value)) : List (String × Value) :=
  upd.foldl (fun acc kv => setKey acc kv.1 kv.2) d

/-- The `updates` dict of `update_contact` (ghl_tool.py line 201):
optional `tags` and `customFields` keys. -/
structure UpdatePayload where
  tagsU : Option (List String) := none
  customFieldsU : Option (List (String × Value)) := none
deriving DecidableEq

/-- In-place mutation of the contact found by `get_contact`: the mock
store holds the same dict object, so the update replaces the first
store entry with the contact's id. -/
def replaceContact : List Contact → String → Contact → List Contact
  | [], _, _ => []
  | c :: rest, contact_id, c' =>
    if c.id == contact_id then c' :: rest
    else c :: replaceContact rest contact_id c'

/-- `GHLTool.update_contact` in mock mode (ghl_tool.py lines 198-237):
policy-check every `customFields` key for `write` before anything else;
then fetch the contact (`ValueError` propagates when missing), replace
`tags` when given, `dict.update` the custom fields when given.  The
returned pair is (result, store after the call). -/
def update_contact (store : List Contact) (contact_id : String)
    (updates : UpdatePayload) : Except GHLErr Contact × List Contact :=
  match checkFieldsFor (((updates.customFieldsU).getD []).map (fun p => p.1)) "write" with
  | .error e => (.error (.policy e), store)
  | .ok _ =>
    match findContact store contact_id with
    | none => (.error (.notFound contact_id), store)
    | some contact =>
      let c1 := match updates.tagsU with
        | some ts => { contact with tags := ts }
        | none => contact
      let c2 := match updates.customFieldsU with
        | some fs => { c1 with customFields := dictUpdate c1.customFields fs }
        | none => c1
      (.ok c2, replaceContact store contact_id c2)

/-- `GHLTool.add_tag` (ghl_tool.py lines 241-248): fetch the contact,
and only when the tag is absent append it and write the tag list back
through `update_contact`. -/
def add_tag (store : List Contact) (contact_id tag : String) :
    Except GHLErr Contact × List Contact :=
  match get_contact store contact_id with
  | .error e => (.error e, store)
  | .ok contact =>
    if !(contact.tags.contains tag) then
      update_contact store contact_id { tagsU := some (contact.tags ++ [tag]) }
    else
      (.ok contact, store)

/-- Mock contact `contact_001` (ghl_tool.py lines 23-37). -/
def mock_contact_001 : Contact :=
  { id := "contact_001"
    email := "jane.smith@example.com"
    firstName := "Jane"
    lastName := "Smith"
    phone := "+61412345678"
    tags := ["empathy-ledger", "role:storyteller", "engagement:active"]
    customFields :=
      [("supabase_user_id", .vStr "uuid-123-storyteller"),
       ("storyteller_status", .vStr "Active"),
       ("stories_count", .vInt 5),
       ("consent_status", .vStr "Full consent"),
       ("ai_processing_consent", .vStr "Yes")] }

/-- Mock contact `contact_002` (ghl_tool.py lines 38-51). -/
def mock_contact_002 : Contact :=
  { id := "contact_002"
    email := "john.doe@example.com"
    firstName := "John"
    lastName := "Doe"
    phone := "+61423456789"
    tags := ["act-farm", "role:resident", "engagement:alumni",
             "interest:storytelling", "category:artist"]
    customFields :=
      [("residency_type", .vStr "Creative Residency"),
       ("residency_dates", .vStr "2025-03-15 to 2025-03-22"),
       ("residency_completed", .vBool true),
       ("research_focus", .vStr "Environmental art and conservation storytelling")] }

/-- Mock contact `contact_003` (ghl_tool.py lines 52-75). -/
def mock_contact_003 : Contact :=
  { id := "contact_003"
    email := "elder.mary@example.com"
    firstName := "Mary"
    lastName := "Johnson"
    phone := "+61434567890"
    tags := ["empathy-ledger", "the-harvest", "role:elder",
             "cultural:kabi-kabi", "priority:high", "engagement:active"]
    customFields :=
      [("supabase_user_id", .vStr "uuid-456-elder"),
       ("cultural_protocols",
        .vStr "Kabi Kabi Elder - requires cultural review for all communications"),
       ("elder_review_required", .vBool true),
       ("stories_count", .vInt 12),
       ("volunteer_hours_total", .vInt 240)] }

/-- Mock contact `contact_004` (ghl_tool.py lines 76-91). -/
def mock_contact_004 : Contact :=
  { id := "contact_004"
    email := "sarah.chen@university.edu.au"
    firstName := "Sarah"
    lastName := "Chen"
    phone := "+61445678901"
    companyName := "University of Queensland"
    tags := ["empathy-ledger", "role:partner", "engagement:lead",
             "category:organization", "category:university", "lead:saas"]
    customFields :=
      [("organization_type", .vStr "University"),
       ("estimated_users", .vInt 500),
       ("pilot_interest", .vBool true),
       ("arr", .vInt 6000),
       ("customer_health_score", .vInt 85)] }

/-- Mock contact `contact_005` (ghl_tool.py lines 92-105). -/
def mock_contact_005 : Contact :=
  { id := "contact_005"
    email := "michael.brown@example.com"
    firstName := "Michael"
    lastName := "Brown"
    phone := "+61456789012"
    tags := ["the-harvest", "role:volunteer", "engagement:active",
             "interest:conservation", "interest:regenerative-agriculture"]
    customFields :=
      [("volunteer_interests",
        .vStrList ["Gardening & land care", "Conservation projects"]),
       ("volunteer_hours_total", .vInt 65),
       ("volunteer_orientation_completed", .vBool true),
       ("membership_level", .vStr "Supporter ($100/year)")] }

/-- `GHLTool._load_mock_data` (ghl_tool.py lines 20-106). -/
def mock_contacts : List Contact :=
  [mock_contact_001, mock_contact_002, mock_contact_003,
   mock_contact_004, mock_contact_005]

theorem checkFieldsFor_error {l : List String} {op : String}
    (h : ∃ f ∈ l, ∃ e, check_cultural_protocol f op none = .error e) :
    ∃ e, checkFieldsFor l op = .error e := by
  induction l with
  | nil => simp at h
  | cons a as ih =>
    obtain ⟨f, hf, e, he⟩ := h
    cases hca : check_cultural_protocol a op none with
    | error e0 => exact ⟨e0, by simp [checkFieldsFor, hca]⟩
    | ok u =>
      rcases List.mem_cons.mp hf with rfl | hmem
      · rw [hca] at he; simp at he
      · obtain ⟨e2, he2⟩ := ih ⟨f, hmem, e, he⟩
        exact ⟨e2, by simp [checkFieldsFor, hca, he2]⟩

/-- C3: a search whose custom-field filters mention a BLOCKED field
fails with one fixed policy violation, the same for every store — the
store is never consulted and no record is returned. -/
theorem search_blocked_no_records (f : SearchFilters)
    (h : ∃ fld ∈ ((f.customFieldFilters).getD []).map (fun p => p.1),
          fld ∈ BLOCKED_FIELDS) :
    ∃ e : PolicyErr, ∀ store : List Contact,
      search_contacts store (some f) = .error (.policy e) := by
  obtain ⟨fld, hmem, hblk⟩ := h
  obtain ⟨e, he⟩ := checkFieldsFor_error
    ⟨fld, hmem, .blocked fld "read", check_blocked_eq "read" none hblk⟩
  exact ⟨e, fun store => by simp [search_contacts, he]⟩

/-- The `{'customFieldFilters': {'elder_consent': {'$exists': True}}}`
filter used by the repository's own tests. -/
def blockedSearchFilters : SearchFilters :=
  { customFieldFilters := some [("elder_consent", { existsC := some true })] }

/-- Witness for C3 at the `elder_consent`-exists filter. -/
theorem search_blocked_no_records_witness :
    ∃ e : PolicyErr, ∀ store : List Contact,
      search_contacts store (some blockedSearchFilters) = .error (.policy e) :=
  search_blocked_no_records blockedSearchFilters (by decide)

/-- C2: an update whose `customFields` contain any field failing the
`write` policy check (BLOCKED or READ_ONLY) fails with a policy
violation and leaves the store — so every field of every record,
including the permitted fields of the update — exactly unchanged. -/
theorem update_blocked_atomic (store : List Contact) (contact_id : String)
    (updates : UpdatePayload)
    (h : ∃ fld ∈ ((updates.customFieldsU).getD []).map (fun p => p.1),
          fld ∈ BLOCKED_FIELDS ∨ fld ∈ READ_ONLY_FIELDS) :
    (∃ e : PolicyErr,
      (update_contact store contact_id updates).1 = .error (.policy e)) ∧
    (update_contact store contact_id updates).2 = store := by
  obtain ⟨fld, hmem, hfail⟩ := h
  obtain ⟨e0, he0⟩ := check_write_fails hfail
  obtain ⟨e, he⟩ := checkFieldsFor_error ⟨fld, hmem, e0, he0⟩
  exact ⟨⟨e, by simp [update_contact, he]⟩, by simp [update_contact, he]⟩

/-- An update mixing a permitted field with a BLOCKED one. -/
def blockedUpdatePayload : UpdatePayload :=
  { customFieldsU := some
      [("stories_count", .vInt 99), ("elder_consent", .vStr "tampered")] }

/-- Witness for C2: the mixed update against the mock store leaves the
store untouched, `stories_count` included. -/
theorem update_blocked_atomic_witness :
    (∃ e : PolicyErr,
      (update_contact mock_contacts "contact_001" blockedUpdatePayload).1
        = .error (.policy e)) ∧
    (update_contact mock_contacts "contact_001" blockedUpdatePayload).2
      = mock_contacts :=
  update_blocked_atomic mock_contacts "contact_001" blockedUpdatePayload
    (by decide)

/-- C10: the `write` policy check of `update_contact` runs before the
existence lookup — with a failing field the call reports the policy
violation and never a not-found error, even when the contact id is
absent from the store, and the store is untouched. -/
theorem update_checks_before_lookup (store : List Contact)
    (contact_id : String) (updates : UpdatePayload)
    (hmiss : findContact store contact_id = none)
    (h : ∃ fld ∈ ((updates.customFieldsU).getD []).map (fun p => p.1),
          fld ∈ BLOCKED_FIELDS ∨ fld ∈ READ_ONLY_FIELDS) :
    (∃ e : PolicyErr,
      (update_contact store contact_id updates).1 = .error (.policy e)) ∧
    (∀ cid : String,
      (update_contact store contact_id updates).1 ≠ .error (.notFound cid)) ∧
    (update_contact store contact_id updates).2 = store := by
  obtain ⟨fld, hmem, hfail⟩ := h
  obtain ⟨e0, he0⟩ := check_write_fails hfail
  obtain ⟨e, he⟩ := checkFieldsFor_error ⟨fld, hmem, e0, he0⟩
  refine ⟨⟨e, by simp [update_contact, he]⟩, fun cid => ?_,
    by simp [update_contact, he]⟩
  simp [update_contact, he]

/-- Witness for C10: the blocked update against an empty store and a
nonexistent id fails with a policy error, not not-found. -/
theorem update_checks_before_lookup_witness :
    (∃ e : PolicyErr,
      (update_contact [] "ghost" blockedUpdatePayload).1
        = .error (.policy e)) ∧
    (∀ cid : String,
      (update_contact [] "ghost" blockedUpdatePayload).1
        ≠ .error (.notFound cid)) ∧
    (update_contact [] "ghost" blockedUpdatePayload).2 = [] :=
  update_checks_before_lookup [] "ghost" blockedUpdatePayload rfl (by decide)

theorem findContact_id {store : List Contact} {contact_id : String}
    {c : Contact} (h : findContact store contact_id = some c) :
    (c.id == contact_id) = true := by
  unfold findContact at h
  have h2 := List.find?_some h
  simpa using h2

theorem findContact_replace {store : List Contact} {contact_id : String}
    {c' : Contact} (hc' : (c'.id == contact_id) = true)
    (h : (findContact store contact_id).isSome = true) :
    findContact (replaceContact store contact_id c') contact_id = some c' := by
  induction store with
  | nil => simp [findContact] at h
  | cons a rest ih =>
    cases ha : (a.id == contact_id) with
    | true => simp [findContact, replaceContact, List.find?, ha, hc']
    | false =>
      have h' : (findContact rest contact_id).isSome = true := by
        simpa [findContact, List.find?, ha] using h
      simpa [findContact, replaceContact, List.find?, ha] using ih h'

/-- C8: `add_tag` is idempotent — for a contact present in the store
whose tag list holds the tag at most once, the first call returns a
record whose tags contain the tag exactly once, and the second call
returns the identical result and store (a no-op on the tag list). -/
theorem add_tag_idempotent (store : List Contact) (contact_id tag : String)
    (c : Contact) (h1 : findContact store contact_id = some c)
    (h2 : c.tags.count tag ≤ 1) :
    (∃ c' : Contact, (add_tag store contact_id tag).1 = .ok c' ∧
       c'.tags.count tag = 1) ∧
    add_tag (add_tag store contact_id tag).2 contact_id tag
      = add_tag store contact_id tag := by
  cases hmem : c.tags.contains tag with
  | true =>
    have hmemt : tag ∈ c.tags := by simpa using hmem
    have hres : add_tag store contact_id tag = (.ok c, store) := by
      simp [add_tag, get_contact, h1, hmem, hmemt]
    have hcount : c.tags.count tag = 1 := by
      have hpos : 0 < c.tags.count tag := List.count_pos_iff.mpr hmemt
      omega
    exact ⟨⟨c, by simp [hres], hcount⟩, by simp [hres]⟩
  | false =>
    have hnot : tag ∉ c.tags := by simpa using hmem
    have hcount0 : c.tags.count tag = 0 := List.count_eq_zero.mpr hnot
    have hres : add_tag store contact_id tag
        = (.ok ({ c with tags := c.tags ++ [tag] } : Contact),
           replaceContact store contact_id { c with tags := c.tags ++ [tag] }) := by
      simp [add_tag, get_contact, h1, hmem, hnot, update_contact, checkFieldsFor]
    have hid : (({ c with tags := c.tags ++ [tag] } : Contact).id == contact_id)
        = true := by
      simpa using findContact_id h1
    have hfind2 : findContact
        (replaceContact store contact_id { c with tags := c.tags ++ [tag] })
        contact_id = some { c with tags := c.tags ++ [tag] } :=
      findContact_replace hid (by simp [h1])
    have hmem2 : (({ c with tags := c.tags ++ [tag] } : Contact).tags.contains tag)
        = true := by simp
    have hres2 : add_tag
        (replaceContact store contact_id { c with tags := c.tags ++ [tag] })
        contact_id tag
        = (.ok { c with tags := c.tags ++ [tag] },
           replaceContact store contact_id { c with tags := c.tags ++ [tag] }) := by
      simp [add_tag, get_contact, hfind2, hmem2]
    refine ⟨⟨{ c with tags := c.tags ++ [tag] }, by simp [hres], ?_⟩, ?_⟩
    · simp [List.count_append, hcount0]
    · rw [hres]
      simpa using hres2

/-- Witness for C8: adding a fresh tag to `contact_001` of the mock
store twice. -/
theorem add_tag_idempotent_witness :
    (∃ c' : Contact, (add_tag mock_contacts "contact_001" "week2-cohort").1
        = .ok c' ∧ c'.tags.count "week2-cohort" = 1) ∧
    add_tag (add_tag mock_contacts "contact_001" "week2-cohort").2
        "contact_001" "week2-cohort"
      = add_tag mock_contacts "contact_001" "week2-cohort" :=
  add_tag_idempotent mock_contacts "contact_001" "week2-cohort"
    mock_contact_001 (by decide) (by decide)

/-- A search filter with only a less-or-equal condition, the comparison
kind the spec lists but no branch of `search_contacts` reads. -/
def lteSearchFilters : SearchFilters :=
  { customFieldFilters := some [("stories_count", { lteC := some (.vInt 3) })] }

/-- Counterexample to C7 as stated: searching the mock store with
`stories_count <= 3` returns every record — including `contact_003`,
whose `stories_count` is 12 — because the condition loop recognises
only `$gte`, `$eq` and `$exists` and silently ignores `$lte`. -/
theorem lte_unsupported_counterexample :
    search_contacts mock_contacts (some lteSearchFilters) = .ok mock_contacts ∧
    mock_contact_003 ∈ mock_contacts ∧
    getField mock_contact_003.customFields "stories_count" = some (.vInt 12) ∧
    ¬ ((12 : Int) ≤ 3) := by
  refine ⟨rfl, by simp [mock_contacts], rfl, by decide⟩

/-- The field holds an integer (or is absent), the only situation in
which the Python `>=` of the `$gte` branch is well-typed against an
integer threshold. -/
def intLikeField (c : Contact) (field : String) : Bool :=
  match getField c.customFields field with
  | some (.vInt _) => true
  | none => true
  | some _ => false

/-- Spec-side reading of a greater-or-equal condition: the record's
field value, defaulting to 0 when the field is absent, is at least the
threshold. -/
def fieldAtLeast (c : Contact) (field : String) (n : Int) : Bool :=
  match getField c.customFields field with
  | some (.vInt k) => decide (n ≤ k)
  | none => decide (n ≤ 0)
  | some _ => false

/-- A single greater-or-equal custom-field filter. -/
def gteFilters (field : String) (n : Int) : SearchFilters :=
  { customFieldFilters := some [(field, { gteC := some (.vInt n) })] }

/-- A single less-or-equal custom-field filter. -/
def lteFilters (field : String) (v : Value) : SearchFilters :=
  { customFieldFilters := some [(field, { lteC := some v })] }

theorem filterExcept_ok {p : Contact → Except GHLErr Bool}
    {q : Contact → Bool} {l : List Contact}
    (h : ∀ c ∈ l, p c = .ok (q c)) :
    filterExcept p l = .ok (l.filter q) := by
  induction l with
  | nil => rfl
  | cons a rest ih =>
    have ha := h a (by simp)
    have ih2 := ih (fun c hc => h c (by simp [hc]))
    cases hqa : q a <;>
      simp [filterExcept, ha, ih2, hqa, List.filter_cons]

/-- C7 as amended: the condition language of `search_contacts`
supports greater-or-equal, equals and exists; less-or-equal is ignored
(it filters nothing), and for a greater-or-equal condition on an
unblocked integer-valued field the returned records are exactly those
whose field value (0 when absent) is at least the threshold. -/
theorem gte_filters_exactly (store : List Contact) (field : String) (n : Int)
    (hb : field ∉ BLOCKED_FIELDS)
    (hint : ∀ c ∈ store, intLikeField c field = true) :
    search_contacts store (some (gteFilters field n))
      = .ok (store.filter (fun c => fieldAtLeast c field n)) ∧
    (∀ v : Value, search_contacts store (some (lteFilters field v))
      = .ok store) := by
  have hchk : check_cultural_protocol field "read" none = .ok () := by
    simp [check_cultural_protocol, hb]
  have hp : ∀ c ∈ store,
      (match pyGe ((getField c.customFields field).getD (.vInt 0)) (.vInt n) with
       | some b => (Except.ok b : Except GHLErr Bool)
       | none => .error .typeError) = .ok (fieldAtLeast c field n) := by
    intro c hc
    have hi := hint c hc
    unfold intLikeField at hi
    unfold fieldAtLeast
    cases hv : getField c.customFields field with
    | none => simp [hv, pyGe, toNum]
    | some v =>
      rw [hv] at hi
      cases v with
      | vInt k => simp [hv, pyGe, toNum]
      | vStr s => simp at hi
      | vBool b => simp at hi
      | vStrList l => simp at hi
  have hflt := filterExcept_ok hp
  constructor
  · simp [search_contacts, gteFilters, checkFieldsFor, hchk, applyConditions,
      applyCondition, hflt]
  · intro v
    simp [search_contacts, lteFilters, checkFieldsFor, hchk, applyConditions,
      applyCondition]

/-- Witness for the amended C7 on the mock store with a
`stories_count >= 3` condition and `stories_count <= v` conditions. -/
theorem gte_filters_exactly_witness :
    search_contacts mock_contacts (some (gteFilters "stories_count" 3))
      = .ok (mock_contacts.filter (fun c => fieldAtLeast c "stories_count" 3)) ∧
    (∀ v : Value, search_contacts mock_contacts
        (some (lteFilters "stories_count" v))
      = .ok mock_contacts) :=
  gte_filters_exactly mock_contacts "stories_count" 3 (by decide) (by decide)

end ACT
